import Mathlib

/-!
Verification of the formation-grid layout engine of the soccerx-ai
repository.  The engine appears twice in the source, as the function
`renderFormationGrid` inside the `MatchDetails` component
(src/unnamed/part_003) and inside
src/frontend/src/components/Match/LiveCommentary.jsx.  Both copies are
transcribed below, each in its own namespace, as pure functions from a
lineup record to an optional list of optional coordinates (the DOM and
styling parts of the JSX are not part of the layout computation and are
omitted; what is kept is exactly the data each rendered marker receives:
its top% and left% values).

Strings are modelled as lists of characters.  JavaScript `NaN` values
arising from `Number` applied to a non-numeric segment are modelled as
`none : Option Nat`; JavaScript `undefined` for a `leftPercentage` that
no branch assigns is modelled as `none : Option ℚ`.  Percentages are
exact rationals.
-/

/-- One player record `{ number, name }` from a lineup's `startXI`. -/
structure PlayerRec where
  number : Int
  name : List Char
deriving DecidableEq

/-- One entry `item` of `startXI`; `item.player` may be null. -/
structure StartItem where
  player : Option PlayerRec
deriving DecidableEq

/-- The fields of a lineup record that the layout engine reads:
`lineup.formation` (a string, `none` when absent) and `lineup.startXI`
(`none` when absent).  Team/coach/substitute fields only affect styling
and are omitted. -/
structure Lineup where
  formation : Option (List Char)
  startXI : Option (List StartItem)
deriving DecidableEq

/-- The data of one rendered marker: its `top` percentage and its
`left` percentage.  `left = none` models the JavaScript `undefined`
that reaches the style when no `playersInRow` branch fires. -/
structure Coord where
  top : ℚ
  left : Option ℚ
deriving DecidableEq

/-- Model of JavaScript `String.prototype.split("-")`: the list of
`'-'`-separated segments.  As in JavaScript, `""` splits to `[""]` and
adjacent delimiters produce empty segments. -/
def splitOnDash : List Char → List (List Char)
  | [] => [[]]
  | c :: cs =>
    if c = '-' then [] :: splitOnDash cs
    else
      match splitOnDash cs with
      | [] => [[c]]
      | s :: rest => (c :: s) :: rest

/-- Decimal value of a digit string. -/
def digitsVal (cs : List Char) : Nat :=
  cs.foldl (fun a c => a * 10 + (c.toNat - '0'.toNat)) 0

/-- Model of JavaScript `Number` on formation segments: a string of
decimal digits evaluates to its decimal value (the empty string to
`0`, as `Number("") === 0`), and any segment containing a non-digit
character evaluates to `none`, modelling `NaN`.  This is exact on
digit-only and empty segments and on genuinely non-numeric segments
such as `"x"`; it does not cover the further numeric forms `Number`
accepts (fractional such as `"0.1"`, exponent, hex, or padded by
whitespace), so theorems that quantify over formation strings restrict
themselves, via a `parseFormation f = ns.map some` or `matchesPattern`
hypothesis, to strings on which this model is exact. -/
def jsNumber (cs : List Char) : Option Nat :=
  if cs.all Char.isDigit then some (digitsVal cs) else none

/-- Model of `lineup.formation.split("-").map(Number)` (line 44 of part_003):
the `formationRows` array, with `none` entries for `NaN`. -/
def parseFormation (s : List Char) : List (Option Nat) :=
  (splitOnDash s).map jsNumber

namespace MatchDetails

/-- The row-search loop of `renderFormationGrid` (part_003 lines
73-81): walk `formationRows` with 0-based row index `i` and running
count `positionCount` (which becomes `none` once a `NaN` row size has
been added, after which every comparison is false, as in JavaScript);
on the first row with `position < positionCount + formationRows[i]`
return `(row, position, playersInRow) =
(i+1, position - positionCount, formationRows[i])`; if no row matches,
the loop exits and the initial values `row = 0`, `position` unchanged,
`playersInRow = 1` stand. -/
def loopAssign : List (Option Nat) → Option Nat → Nat → Nat → Nat × Nat × Nat
  | [], _, _, position => (0, position, 1)
  | r :: rest, pc, i, position =>
    match pc, r with
    | some c, some rv =>
      if position < c + rv then (i + 1, position - c, rv)
      else loopAssign rest (some (c + rv)) (i + 1) position
    | some _, none => loopAssign rest none (i + 1) position
    | none, _ => loopAssign rest none (i + 1) position

/-- Row assignment for the player at `index` (part_003 lines 62-82):
index 0 is the keeper, `(row, position, playersInRow) = (0, 0, 1)`;
otherwise run the loop with `positionCount` starting at 1. -/
def assign (rows : List (Option Nat)) (index : Nat) : Nat × Nat × Nat :=
  if index = 0 then (0, index, 1)
  else loopAssign rows (some 1) 0 index

/-- Transcription of `topPercentage = (row * 120) / (totalRows + 1) + 10` (line 85). -/
def topPct (totalRows row : Nat) : ℚ :=
  ((row : ℚ) * 120) / ((totalRows : ℚ) + 1) + 10

/-- Transcription of `leftPercentage` (lines 87-96): defined only for `playersInRow`
1 to 4; any other row size leaves it `undefined` (`none`). -/
def leftPct (playersInRow position : Nat) : Option ℚ :=
  if playersInRow = 1 then some 50
  else if playersInRow = 2 then some (if position = 0 then 30 else 70)
  else if playersInRow = 3 then some (20 + (position : ℚ) * 30)
  else if playersInRow = 4 then some (15 + (position : ℚ) * 23.33)
  else none

/-- The coordinate computed for the player at `index`. -/
def coordFor (rows : List (Option Nat)) (totalRows index : Nat) : Coord :=
  let t := assign rows index
  { top := topPct totalRows t.1, left := leftPct t.2.2 t.2.1 }

/-- Body of the `startXI.map((item, index) => ...)` call (lines 58-118):
a null `item.player` renders nothing (`none`); otherwise the marker
for absolute index `idx` is rendered. -/
def renderPlayers (rows : List (Option Nat)) (totalRows : Nat) :
    Nat → List StartItem → List (Option Coord)
  | _, [] => []
  | idx, item :: rest =>
    (match item.player with
     | none => none
     | some _ => some (coordFor rows totalRows idx)) ::
      renderPlayers rows totalRows (idx + 1) rest

/-- Transcription of `renderFormationGrid` of part_003 (lines 38-126): `null` when
`lineup.formation` is absent or empty (falsy) or `lineup.startXI` is
absent; otherwise parse `formationRows`, set
`totalRows = formationRows.length + 1`, and map every `startXI` entry
to its marker data. -/
def renderFormationGrid (lineup : Lineup) : Option (List (Option Coord)) :=
  match lineup.formation, lineup.startXI with
  | some f, some xs =>
    if f = [] then none
    else
      let formationRows := parseFormation f
      let totalRows := formationRows.length + 1
      some (renderPlayers formationRows totalRows 0 xs)
  | some _, none => none
  | none, _ => none

end MatchDetails

namespace LiveCommentary

/-- The row-search loop of `renderFormationGrid` in LiveCommentary.jsx
(lines 177-185), identical in text to the part_003 copy. -/
def loopAssign : List (Option Nat) → Option Nat → Nat → Nat → Nat × Nat × Nat
  | [], _, _, position => (0, position, 1)
  | r :: rest, pc, i, position =>
    match pc, r with
    | some c, some rv =>
      if position < c + rv then (i + 1, position - c, rv)
      else loopAssign rest (some (c + rv)) (i + 1) position
    | some _, none => loopAssign rest none (i + 1) position
    | none, _ => loopAssign rest none (i + 1) position

/-- Row assignment in LiveCommentary.jsx (lines 166-186). -/
def assign (rows : List (Option Nat)) (index : Nat) : Nat × Nat × Nat :=
  if index = 0 then (0, index, 1)
  else loopAssign rows (some 1) 0 index

/-- Transcription of `topPercentage` in LiveCommentary.jsx (line 189). -/
def topPct (totalRows row : Nat) : ℚ :=
  ((row : ℚ) * 120) / ((totalRows : ℚ) + 1) + 10

/-- Transcription of `leftPercentage` in LiveCommentary.jsx (lines 192-201). -/
def leftPct (playersInRow position : Nat) : Option ℚ :=
  if playersInRow = 1 then some 50
  else if playersInRow = 2 then some (if position = 0 then 30 else 70)
  else if playersInRow = 3 then some (20 + (position : ℚ) * 30)
  else if playersInRow = 4 then some (15 + (position : ℚ) * 23.33)
  else none

/-- The coordinate computed for the player at `index`. -/
def coordFor (rows : List (Option Nat)) (totalRows index : Nat) : Coord :=
  let t := assign rows index
  { top := topPct totalRows t.1, left := leftPct t.2.2 t.2.1 }

/-- Body of the `startXI.map((item, index) => ...)` call in
LiveCommentary.jsx (lines 163-225). -/
def renderPlayers (rows : List (Option Nat)) (totalRows : Nat) :
    Nat → List StartItem → List (Option Coord)
  | _, [] => []
  | idx, item :: rest =>
    (match item.player with
     | none => none
     | some _ => some (coordFor rows totalRows idx)) ::
      renderPlayers rows totalRows (idx + 1) rest

/-- Transcription of `renderFormationGrid` of LiveCommentary.jsx (lines 142-232). -/
def renderFormationGrid (lineup : Lineup) : Option (List (Option Coord)) :=
  match lineup.formation, lineup.startXI with
  | some f, some xs =>
    if f = [] then none
    else
      let formationRows := parseFormation f
      let totalRows := formationRows.length + 1
      some (renderPlayers formationRows totalRows 0 xs)
  | some _, none => none
  | none, _ => none

end LiveCommentary

/-- A concrete roster of `k` valid player entries, used in witnesses. -/
def testXI (k : Nat) : List StartItem :=
  (List.range k).map fun n => ⟨some ⟨(n : Int), []⟩⟩

/-- The layout entry the engine produces at roster position `i`. -/
def layoutAt (lineup : Lineup) (i : Nat) : Option (Option Coord) :=
  (MatchDetails.renderFormationGrid lineup).bind fun l => l.get? i

/-- Modelled from the spec: the row walk of the reference row-assignment
algorithm (spec section 4.2, step 3).  Walk the FormationSpec rows in
order with row index `i` and running count `cursor`; for the first row
with `p < cursor + rows[i]` the player belongs to row `i + 1` with
`slotWithinRow = p - cursor` and `rowSize = rows[i]`; otherwise add
`rows[i]` to `cursor` and continue.  Beyond the last row the spec drops
the player (step 4), so no assignment is defined there; the `(0, 0, 0)`
returned in the nil case is immaterial under the within-capacity
hypothesis of the theorems that use this function. -/
def specFind : List Nat → Nat → Nat → Nat → Nat × Nat × Nat
  | [], _, _, _ => (0, 0, 0)
  | r :: rest, i, cursor, p =>
    if p < cursor + r then (i + 1, p - cursor, r)
    else specFind rest (i + 1) (cursor + r) p

/-- Modelled from the spec: the reference row-assignment algorithm of
spec section 4.2.  Index 0 is always row 0 with `rowSize = 1` and
`slotWithinRow = 0`; for `index > 0`, set `p = index - 1` and walk the
rows with `cursor` starting at 0. -/
def specRowAssign (rows : List Nat) (index : Nat) : Nat × Nat × Nat :=
  if index = 0 then (0, 0, 1) else specFind rows 0 0 (index - 1)

/-- Modelled from the spec: the generalized spacing formula the spec
gives for `rowSize ≥ 5`, namely
`left% = 15 + slotWithinRow * (70 / (rowSize - 1))`. -/
def specLeftGeneral (rowSize slotWithinRow : Nat) : ℚ :=
  15 + (slotWithinRow : ℚ) * (70 / ((rowSize : ℚ) - 1))

/-- A formation string matches the pattern `\d+(-\d+)*` exactly when
every `'-'`-separated segment is nonempty and consists of digits. -/
def matchesPattern (s : List Char) : Bool :=
  (splitOnDash s).all fun seg => !seg.isEmpty && seg.all Char.isDigit

/-- Decision of positivity of a parsed segment value, `NaN` counting
as not positive. -/
def isPosVal : Option Nat → Bool
  | some n => decide (0 < n)
  | none => false

/-- Lineup "4-3-3" with exactly 11 players (scenario A of the spec). -/
def lineup433 : Lineup :=
  ⟨some ['4', '-', '3', '-', '3'], some (testXI 11)⟩

/-- Lineup "4-4-2" with 13 players, 2 beyond capacity (scenario C). -/
def lineup442x13 : Lineup :=
  ⟨some ['4', '-', '4', '-', '2'], some (testXI 13)⟩

/-- Lineup "5-3-2" with 11 players: its first row has size 5. -/
def lineup532 : Lineup :=
  ⟨some ['5', '-', '3', '-', '2'], some (testXI 11)⟩

/-- Lineup whose formation string "4-x-3" has a non-numeric segment. -/
def lineup4x3 : Lineup :=
  ⟨some ['4', '-', 'x', '-', '3'], some (testXI 11)⟩

/-- Lineup with the eight-row formation "1-1-1-1-1-1-1-1" and 9
players, exactly filling its capacity. -/
def lineupOnes : Lineup :=
  ⟨some ['1', '-', '1', '-', '1', '-', '1', '-', '1', '-', '1', '-', '1', '-', '1'],
    some (testXI 9)⟩

/-- Length of the rendered marker list equals the roster length. -/
theorem renderPlayers_length (rows : List (Option Nat)) (tr : Nat) :
    ∀ (idx : Nat) (items : List StartItem),
      (MatchDetails.renderPlayers rows tr idx items).length = items.length := by
  intro idx items
  induction items generalizing idx with
  | nil => rfl
  | cons item rest ih =>
    simp [MatchDetails.renderPlayers, ih]

/-- The marker at output position `i` is the marker computed for the
roster entry at position `i`, at absolute index `idx + i`. -/
theorem renderPlayers_get (rows : List (Option Nat)) (tr : Nat) :
    ∀ (items : List StartItem) (idx i : Nat),
      (MatchDetails.renderPlayers rows tr idx items).get? i =
        (items.get? i).map fun item =>
          item.player.map fun _ => MatchDetails.coordFor rows tr (idx + i) := by
  intro items
  induction items with
  | nil => intro idx i; simp [MatchDetails.renderPlayers]
  | cons item rest ih =>
    intro idx i
    cases i with
    | zero =>
      cases hp : item.player <;>
        simp [MatchDetails.renderPlayers, hp]
    | succ n =>
      have := ih (idx + 1) n
      simp only [MatchDetails.renderPlayers, List.get?_cons_succ, this]
      have harg : idx + 1 + n = idx + (n + 1) := by omega
      rw [harg]

/-- Either the row-search loop falls through (leaving the initial
values `row = 0`, `position` unchanged, `playersInRow = 1`), or it
matched some row, in which case the slot is strictly below the row
size and the row index is at least `i + 1`.  The hypothesis records
the loop invariant that `position` never drops below a numeric
running count. -/
theorem loopAssign_cases (rows : List (Option Nat)) :
    ∀ (pc : Option Nat) (i p : Nat), (∀ c, pc = some c → c ≤ p) →
      MatchDetails.loopAssign rows pc i p = (0, p, 1) ∨
        ∃ row slot sz, MatchDetails.loopAssign rows pc i p = (row, slot, sz) ∧
          slot < sz ∧ i + 1 ≤ row := by
  induction rows with
  | nil => intro pc i p _; left; rfl
  | cons r rest ih =>
    intro pc i p hinv
    rcases pc with _ | c
    · rcases ih none (i + 1) p (fun c hc => by cases hc) with h | ⟨row, slot, sz, h, h1, h2⟩
      · left; simpa [MatchDetails.loopAssign] using h
      · right
        exact ⟨row, slot, sz, by simpa [MatchDetails.loopAssign] using h, h1, by omega⟩
    · have hc : c ≤ p := hinv c rfl
      rcases r with _ | rv
      · rcases ih none (i + 1) p (fun c hc => by cases hc) with h | ⟨row, slot, sz, h, h1, h2⟩
        · left; simpa [MatchDetails.loopAssign] using h
        · right
          exact ⟨row, slot, sz, by simpa [MatchDetails.loopAssign] using h, h1, by omega⟩
      · by_cases hlt : p < c + rv
        · right
          refine ⟨i + 1, p - c, rv, by simp [MatchDetails.loopAssign, hlt], by omega, by omega⟩
        · rcases ih (some (c + rv)) (i + 1) p (fun d hd => by injection hd with hd; omega)
            with h | ⟨row, slot, sz, h, h1, h2⟩
          · left; simpa [MatchDetails.loopAssign, hlt] using h
          · right
            exact ⟨row, slot, sz, by simpa [MatchDetails.loopAssign, hlt] using h, h1, by omega⟩

/-- The row index the loop returns never exceeds `i` plus the number
of remaining formation rows. -/
theorem loopAssign_row_le (rows : List (Option Nat)) :
    ∀ (pc : Option Nat) (i p : Nat),
      (MatchDetails.loopAssign rows pc i p).1 ≤ i + rows.length := by
  induction rows with
  | nil => intro pc i p; simp [MatchDetails.loopAssign]
  | cons r rest ih =>
    intro pc i p
    rcases pc with _ | c
    · have := ih none (i + 1) p
      simp only [MatchDetails.loopAssign, List.length_cons]
      omega
    · rcases r with _ | rv
      · have := ih none (i + 1) p
        simp only [MatchDetails.loopAssign, List.length_cons]
        omega
      · by_cases hlt : p < c + rv
        · simp [MatchDetails.loopAssign, hlt]
        · have := ih (some (c + rv)) (i + 1) p
          simp only [MatchDetails.loopAssign, hlt, if_false, List.length_cons]
          omega

/-- When `position` is at or beyond the running count plus the whole
remaining outfield capacity, no row matches and the loop falls
through with the initial values. -/
theorem loopAssign_beyond (ns : List Nat) :
    ∀ (c i p : Nat), c + ns.sum ≤ p →
      MatchDetails.loopAssign (ns.map some) (some c) i p = (0, p, 1) := by
  induction ns with
  | nil => intro c i p h; rfl
  | cons n rest ih =>
    intro c i p h
    simp only [List.sum_cons] at h
    simp only [List.map_cons, MatchDetails.loopAssign]
    rw [if_neg (by omega)]
    exact ih (c + n) (i + 1) p (by omega)

/-- On an all-numeric formation and within capacity, the source loop
(count starting at `cursor + 1`, position `p + 1`) computes exactly
the reference walk of the spec (cursor starting at `cursor`,
outfield-relative position `p`). -/
theorem loopAssign_eq_specFind (ns : List Nat) :
    ∀ (i cur p : Nat), cur ≤ p → p < cur + ns.sum →
      MatchDetails.loopAssign (ns.map some) (some (cur + 1)) i (p + 1) =
        specFind ns i cur p := by
  induction ns with
  | nil => intro i cur p h1 h2; simp at h2; omega
  | cons n rest ih =>
    intro i cur p h1 h2
    simp only [List.sum_cons] at h2
    simp only [List.map_cons, MatchDetails.loopAssign, specFind]
    by_cases h : p < cur + n
    · rw [if_pos (by omega), if_pos h]
      simp [Nat.succ_sub_succ]
    · rw [if_neg (by omega), if_neg h]
      have harg : cur + 1 + n = cur + n + 1 := by omega
      rw [harg]
      exact ih (i + 1) (cur + n) p (by omega) (by omega)

/-- Within capacity the reference walk always matches a row, so the
returned row index is at least `i + 1`. -/
theorem specFind_row_lb (ns : List Nat) :
    ∀ (i cur p : Nat), cur ≤ p → p < cur + ns.sum →
      i + 1 ≤ (specFind ns i cur p).1 := by
  induction ns with
  | nil => intro i cur p h1 h2; simp at h2; omega
  | cons n rest ih =>
    intro i cur p h1 h2
    simp only [List.sum_cons] at h2
    simp only [specFind]
    by_cases h : p < cur + n
    · rw [if_pos h]
    · rw [if_neg h]
      have := ih (i + 1) (cur + n) p (by omega) (by omega)
      omega

/-- Two distinct within-capacity positions that the reference walk
sends to the same row get the same row size, distinct slots, and
slots strictly below the row size. -/
theorem specFind_same_row (ns : List Nat) :
    ∀ (i cur p q : Nat), cur ≤ p → p < cur + ns.sum →
      cur ≤ q → q < cur + ns.sum → p ≠ q →
      (specFind ns i cur p).1 = (specFind ns i cur q).1 →
      (specFind ns i cur p).2.2 = (specFind ns i cur q).2.2 ∧
        (specFind ns i cur p).2.1 ≠ (specFind ns i cur q).2.1 ∧
        (specFind ns i cur p).2.1 < (specFind ns i cur p).2.2 := by
  induction ns with
  | nil => intro i cur p q h1 h2; simp at h2; omega
  | cons n rest ih =>
    intro i cur p q hp1 hp2 hq1 hq2 hpq hrow
    simp only [List.sum_cons] at hp2 hq2
    simp only [specFind] at hrow ⊢
    by_cases h : p < cur + n <;> by_cases h2 : q < cur + n
    · rw [if_pos h, if_pos h2] at hrow ⊢
      exact ⟨rfl, show p - cur ≠ q - cur by omega, show p - cur < n by omega⟩
    · rw [if_pos h, if_neg h2] at hrow
      have hlb := specFind_row_lb rest (i + 1) (cur + n) q (by omega) (by omega)
      have hrow2 : i + 1 = (specFind rest (i + 1) (cur + n) q).1 := hrow
      omega
    · rw [if_neg h, if_pos h2] at hrow
      have hlb := specFind_row_lb rest (i + 1) (cur + n) p (by omega) (by omega)
      have hrow2 : (specFind rest (i + 1) (cur + n) p).1 = i + 1 := hrow
      omega
    · rw [if_neg h, if_neg h2] at hrow ⊢
      exact ih (i + 1) (cur + n) p q (by omega) (by omega) (by omega) (by omega) hpq hrow

/-- Every defined `leftPercentage` lies between 0 and 100, given the
slot bound the row search guarantees. -/
theorem leftPct_bounds (sz slot : Nat) (h : sz = 1 ∨ slot < sz) (x : ℚ)
    (hx : MatchDetails.leftPct sz slot = some x) : 0 ≤ x ∧ x ≤ 100 := by
  unfold MatchDetails.leftPct at hx
  by_cases h1 : sz = 1
  · rw [if_pos h1] at hx
    injection hx with hx
    subst hx
    norm_num
  · rw [if_neg h1] at hx
    by_cases h2 : sz = 2
    · rw [if_pos h2] at hx
      injection hx with hx
      subst hx
      split_ifs <;> norm_num
    · rw [if_neg h2] at hx
      by_cases h3 : sz = 3
      · rw [if_pos h3] at hx
        injection hx with hx
        subst hx
        have hslot : slot ≤ 2 := by omega
        have hq : (slot : ℚ) ≤ 2 := by exact_mod_cast hslot
        have hq0 : (0 : ℚ) ≤ (slot : ℚ) := Nat.cast_nonneg slot
        constructor <;> linarith
      · rw [if_neg h3] at hx
        by_cases h4 : sz = 4
        · rw [if_pos h4] at hx
          injection hx with hx
          subst hx
          have hslot : slot ≤ 3 := by omega
          have hq : (slot : ℚ) ≤ 3 := by exact_mod_cast hslot
          have hq0 : (0 : ℚ) ≤ (slot : ℚ) := Nat.cast_nonneg slot
          constructor <;> nlinarith
        · rw [if_neg h4] at hx
          cases hx

/-- Distinct slots in the same row of size at most 4 get distinct
`leftPercentage` values. -/
theorem leftPct_inj (sz s1 s2 : Nat) (h1 : s1 < sz) (h2 : s2 < sz)
    (hne : s1 ≠ s2) (hsz : sz ≤ 4) :
    MatchDetails.leftPct sz s1 ≠ MatchDetails.leftPct sz s2 := by
  have hszpos : 1 ≤ sz := by omega
  interval_cases sz <;> interval_cases s1 <;> interval_cases s2 <;>
    simp_all [MatchDetails.leftPct] <;> norm_num

/-- The `topPercentage` value is never negative. -/
theorem topPct_nonneg (tr row : Nat) : 0 ≤ MatchDetails.topPct tr row := by
  unfold MatchDetails.topPct
  positivity

/-- With at most 6 formation rows the `topPercentage` value stays at
or below 100. -/
theorem topPct_le_100 (len row : Nat) (hrow : row ≤ len) (hlen : len ≤ 6) :
    MatchDetails.topPct (len + 1) row ≤ 100 := by
  unfold MatchDetails.topPct
  have hpos : (0 : ℚ) < ((len + 1 : Nat) : ℚ) + 1 := by positivity
  have hdiv : ((row : ℚ) * 120) / (((len + 1 : Nat) : ℚ) + 1) ≤ 90 := by
    rw [div_le_iff₀ hpos]
    have hr : (row : ℚ) ≤ (len : ℚ) := by exact_mod_cast hrow
    have hl : (len : ℚ) ≤ 6 := by exact_mod_cast hlen
    push_cast
    nlinarith
  linarith

/-- Rows are monotone in `topPercentage`: distinct rows get distinct
top values. -/
theorem topPct_inj (tr r1 r2 : Nat) (hne : r1 ≠ r2) :
    MatchDetails.topPct tr r1 ≠ MatchDetails.topPct tr r2 := by
  unfold MatchDetails.topPct
  have hpos : (0 : ℚ) < ((tr : ℚ) + 1) := by positivity
  have hq : (r1 : ℚ) ≠ (r2 : ℚ) := by exact_mod_cast hne
  intro h
  have h2 : (r1 : ℚ) * 120 / ((tr : ℚ) + 1) = (r2 : ℚ) * 120 / ((tr : ℚ) + 1) := by
    linarith
  rw [div_eq_div_iff hpos.ne' hpos.ne'] at h2
  have : (r1 : ℚ) = (r2 : ℚ) := by
    have h120 : (0 : ℚ) < 120 := by norm_num
    nlinarith
  exact hq this

/-- Bounds on every coordinate the engine computes with
`totalRows = rows.length + 1`: `top` is nonnegative, any defined
`left` lies in `[0, 100]`, and `top` stays at or below 100 whenever
the formation has at most 6 rows. -/
theorem coordFor_bounds (rows : List (Option Nat)) (index : Nat) :
    0 ≤ (MatchDetails.coordFor rows (rows.length + 1) index).top ∧
      (∀ x, (MatchDetails.coordFor rows (rows.length + 1) index).left = some x →
        0 ≤ x ∧ x ≤ 100) ∧
      (rows.length ≤ 6 →
        (MatchDetails.coordFor rows (rows.length + 1) index).top ≤ 100) := by
  unfold MatchDetails.coordFor
  by_cases h0 : index = 0
  · simp only [MatchDetails.assign, h0, if_pos rfl]
    refine ⟨topPct_nonneg _ _, ?_, fun hlen => topPct_le_100 _ _ (Nat.zero_le _) hlen⟩
    intro x hx
    exact leftPct_bounds 1 0 (Or.inl rfl) x hx
  · simp only [MatchDetails.assign, if_neg h0]
    have hinv : ∀ c, (some 1 : Option Nat) = some c → c ≤ index := by
      intro c hcc
      injection hcc with hcc
      omega
    rcases loopAssign_cases rows (some 1) 0 index hinv with h | ⟨row, slot, sz, h, h1, h2⟩
    · rw [h]
      refine ⟨topPct_nonneg _ _, ?_, fun hlen => topPct_le_100 _ _ (Nat.zero_le _) hlen⟩
      intro x hx
      exact leftPct_bounds 1 index (Or.inl rfl) x hx
    · rw [h]
      have hrow : row ≤ rows.length := by
        have := loopAssign_row_le rows (some 1) 0 index
        rw [h] at this
        simpa using this
      refine ⟨topPct_nonneg _ _, ?_, fun hlen => topPct_le_100 _ _ hrow hlen⟩
      intro x hx
      exact leftPct_bounds sz slot (Or.inr h1) x hx

/-- C2 (amended): for every input whose formation string is empty or
absent, the engine returns the no-layout result (`none`); no layout is
attempted.  (The original claim also covered formation strings with a
non-numeric segment, but those are not rejected by the code: see the
counterexample.) -/
theorem C2_empty_or_absent_formation (lineup : Lineup)
    (h : lineup.formation = none ∨ lineup.formation = some []) :
    MatchDetails.renderFormationGrid lineup = none := by
  obtain ⟨lf, lx⟩ := lineup
  rcases h with h | h
  · have hl : lf = none := h
    subst hl
    cases lx <;> rfl
  · have hl : lf = some [] := h
    subst hl
    cases lx <;> rfl

/-- C2 witness: the empty formation string yields no layout. -/
theorem C2_witness :
    MatchDetails.renderFormationGrid ⟨some [], some (testXI 11)⟩ = none :=
  C2_empty_or_absent_formation ⟨some [], some (testXI 11)⟩ (Or.inr rfl)

/-- C2 counterexample: the formation string "4-x-3" contains a
non-numeric segment, yet the parse step does not fail and a layout IS
attempted: the engine returns a marker list, the player at index 1
(matched by the numeric first row) gets a normal coordinate, and the
player at index 5 (behind the NaN segment) gets the fallback
coordinate (top 10, left 50). -/
theorem C2_counterexample :
    MatchDetails.renderFormationGrid lineup4x3 ≠ none ∧
      layoutAt lineup4x3 1 = some (some ⟨34, some 15⟩) ∧
      layoutAt lineup4x3 5 = some (some ⟨10, some 50⟩) := by
  refine ⟨?_, ?_, ?_⟩ <;>
    norm_num +decide [layoutAt, lineup4x3, MatchDetails.renderFormationGrid,
      parseFormation, splitOnDash, jsNumber, digitsVal,
      MatchDetails.renderPlayers, MatchDetails.coordFor, MatchDetails.assign,
      MatchDetails.loopAssign, MatchDetails.topPct, MatchDetails.leftPct,
      testXI, List.range_succ]

/-- C3 (amended): a row of size 5 or more does not crash the engine:
the coordinate for such a player is still produced with the usual
`topPercentage`, but its `leftPercentage` is left undefined (`none`;
no branch of the `playersInRow` conditional fires), not the
generalized spacing formula the spec proposes. -/
theorem C3_rowsize_ge5_left_undefined (rows : List (Option Nat))
    (tr index row slot sz : Nat)
    (ha : MatchDetails.assign rows index = (row, slot, sz)) (h5 : 5 ≤ sz) :
    MatchDetails.coordFor rows tr index = ⟨MatchDetails.topPct tr row, none⟩ := by
  unfold MatchDetails.coordFor
  rw [ha]
  have hleft : MatchDetails.leftPct sz slot = none := by
    unfold MatchDetails.leftPct
    rw [if_neg (by omega), if_neg (by omega), if_neg (by omega), if_neg (by omega)]
  simp [hleft]

/-- C3 witness: in formation "5-3-2" the player at index 1 sits in a
row of size 5 and receives top 34 with an undefined left. -/
theorem C3_witness :
    MatchDetails.assign (parseFormation ['5', '-', '3', '-', '2']) 1 = (1, 0, 5) ∧
      MatchDetails.coordFor (parseFormation ['5', '-', '3', '-', '2']) 4 1 =
        ⟨MatchDetails.topPct 4 1, none⟩ :=
  ⟨by decide,
    C3_rowsize_ge5_left_undefined (parseFormation ['5', '-', '3', '-', '2'])
      4 1 1 0 5 (by decide) (by norm_num)⟩

/-- C3 counterexample: for formation "5-3-2" with 11 players the
engine gives the player at index 1 (slot 0 of the size-5 row) no
`left%` at all, rather than the claimed
`15 + slotWithinRow * (70 / (rowSize - 1))` (which would be 15). -/
theorem C3_counterexample :
    layoutAt lineup532 1 = some (some ⟨34, none⟩) ∧
      (none : Option ℚ) ≠ some (specLeftGeneral 5 0) := by
  constructor
  · norm_num +decide [layoutAt, lineup532, MatchDetails.renderFormationGrid,
      parseFormation, splitOnDash, jsNumber, digitsVal,
      MatchDetails.renderPlayers, MatchDetails.coordFor, MatchDetails.assign,
      MatchDetails.loopAssign, MatchDetails.topPct, MatchDetails.leftPct,
      testXI, List.range_succ]
  · simp

/-- C4: on an all-numeric formation, for every starting-list index
within formation capacity, the engine's row assignment (index 0 to the
keeper row; otherwise the 1-starting `positionCount` loop) computes
exactly the reference algorithm of the spec (outfield position
`p = index - 1` and cursor starting at 0). -/
theorem C4_row_assignment_matches_spec (ns : List Nat) (index : Nat)
    (h : index < 1 + ns.sum) :
    MatchDetails.assign (ns.map some) index = specRowAssign ns index := by
  unfold MatchDetails.assign specRowAssign
  by_cases h0 : index = 0
  · subst h0
    simp
  · rw [if_neg h0, if_neg h0]
    have h1 : index - 1 + 1 = index := by omega
    have h2 := loopAssign_eq_specFind ns 0 0 (index - 1) (Nat.zero_le _) (by omega)
    rw [h1] at h2
    simpa using h2

/-- C4 witness: in formation spec [4, 3, 3], index 5 is within
capacity and both algorithms place it at row 2, slot 0, row size 3. -/
theorem C4_witness :
    5 < 1 + [4, 3, 3].sum ∧
      MatchDetails.assign ([4, 3, 3].map some) 5 = specRowAssign [4, 3, 3] 5 ∧
      specRowAssign [4, 3, 3] 5 = (2, 0, 3) :=
  ⟨by norm_num, C4_row_assignment_matches_spec [4, 3, 3] 5 (by norm_num), by decide⟩

/-- The two transcribed row-search loops agree on all inputs. -/
theorem loopAssign_copies_eq (rows : List (Option Nat)) :
    ∀ (pc : Option Nat) (i p : Nat),
      MatchDetails.loopAssign rows pc i p =
        LiveCommentary.loopAssign rows pc i p := by
  induction rows with
  | nil => intro pc i p; rfl
  | cons r rest ih =>
    intro pc i p
    rcases pc with _ | c <;> rcases r with _ | rv <;>
      simp [MatchDetails.loopAssign, LiveCommentary.loopAssign, ih]

/-- The two transcribed per-player maps agree on all inputs. -/
theorem renderPlayers_copies_eq (rows : List (Option Nat)) (tr : Nat) :
    ∀ (idx : Nat) (items : List StartItem),
      MatchDetails.renderPlayers rows tr idx items =
        LiveCommentary.renderPlayers rows tr idx items := by
  intro idx items
  induction items generalizing idx with
  | nil => rfl
  | cons item rest ih =>
    cases hp : item.player <;>
      simp [MatchDetails.renderPlayers, LiveCommentary.renderPlayers, ih, hp,
        MatchDetails.coordFor, LiveCommentary.coordFor,
        MatchDetails.assign, LiveCommentary.assign, loopAssign_copies_eq,
        MatchDetails.topPct, LiveCommentary.topPct,
        MatchDetails.leftPct, LiveCommentary.leftPct]

/-- C10: the two copies of the formation layout engine, in part_003
(MatchDetails) and in LiveCommentary.jsx, compute identical layout
data on every identical lineup input. -/
theorem C10_engine_copies_identical :
    ∀ lineup : Lineup,
      MatchDetails.renderFormationGrid lineup =
        LiveCommentary.renderFormationGrid lineup := by
  intro lineup
  obtain ⟨lf, lx⟩ := lineup
  rcases lf with _ | f
  · rfl
  · rcases lx with _ | xs
    · rfl
    · by_cases hne : f = []
      · subst hne; rfl
      · simp [MatchDetails.renderFormationGrid, LiveCommentary.renderFormationGrid,
          hne, renderPlayers_copies_eq]

/-- Unfolding of the engine on present, nonempty inputs. -/
theorem renderFormationGrid_some (f : List Char) (xs : List StartItem)
    (hne : f ≠ []) :
    MatchDetails.renderFormationGrid ⟨some f, some xs⟩ =
      some (MatchDetails.renderPlayers (parseFormation f)
        ((parseFormation f).length + 1) 0 xs) := by
  simp [MatchDetails.renderFormationGrid, hne]

/-- C1 (amended): a starting-list entry whose index lies beyond the
formation's outfield capacity is NOT dropped: the row-search loop falls
through with its initial values (row 0, playersInRow 1), so the entry
receives the fallback coordinate top 10, left 50 — the goalkeeper's
spot — and no error is raised.  Entries within capacity are unaffected. -/
theorem C1_excess_players_get_fallback (ns : List Nat) (f : List Char)
    (xs : List StartItem) (lineup : Lineup)
    (hf : lineup.formation = some f) (hne : f ≠ [])
    (hrows : parseFormation f = ns.map some)
    (hxs : lineup.startXI = some xs)
    (index : Nat) (hcap : 1 + ns.sum ≤ index)
    (item : StartItem) (hitem : xs.get? index = some item)
    (pr : PlayerRec) (hpr : item.player = some pr) :
    ∃ l, MatchDetails.renderFormationGrid lineup = some l ∧
      l.get? index = some (some ⟨10, some 50⟩) := by
  obtain ⟨lf, lx⟩ := lineup
  have hlf : lf = some f := hf
  have hlx : lx = some xs := hxs
  subst hlf hlx
  refine ⟨_, renderFormationGrid_some f xs hne, ?_⟩
  rw [renderPlayers_get, hitem]
  have hassign : MatchDetails.assign (ns.map some) index = (0, index, 1) := by
    unfold MatchDetails.assign
    rw [if_neg (by omega)]
    exact loopAssign_beyond ns 1 0 index (by omega)
  simp only [Option.map_some', hpr, Nat.zero_add, hrows, MatchDetails.coordFor,
    hassign]
  simp [MatchDetails.topPct, MatchDetails.leftPct]

/-- C1 witness: formation "4-4-2" (capacity 11) supplied with 13
players; the entry at index 11 is beyond capacity and receives the
fallback coordinate. -/
theorem C1_witness :
    ∃ l, MatchDetails.renderFormationGrid lineup442x13 = some l ∧
      l.get? 11 = some (some ⟨10, some 50⟩) :=
  C1_excess_players_get_fallback [4, 4, 2] ['4', '-', '4', '-', '2']
    (testXI 13) lineup442x13 rfl (by decide) (by decide) rfl 11
    (by norm_num) ⟨some ⟨11, []⟩⟩ (by decide) ⟨11, []⟩ rfl

/-- C1 counterexample: with formation "4-4-2" and 13 players the two
excess entries (indices 11 and 12) are not dropped from the layout:
each still receives a coordinate, namely (top 10, left 50). -/
theorem C1_counterexample :
    layoutAt lineup442x13 11 = some (some ⟨10, some 50⟩) ∧
      layoutAt lineup442x13 12 = some (some ⟨10, some 50⟩) := by
  constructor <;>
    norm_num +decide [layoutAt, lineup442x13, MatchDetails.renderFormationGrid,
      parseFormation, splitOnDash, jsNumber, digitsVal,
      MatchDetails.renderPlayers, MatchDetails.coordFor, MatchDetails.assign,
      MatchDetails.loopAssign, MatchDetails.topPct, MatchDetails.leftPct,
      testXI, List.range_succ]

/-- C5: every rendered player's coordinate obeys the source formulas:
`top% = (row * 120) / (totalRows + 1) + 10` with
`totalRows = len(FormationSpec) + 1`, and `left%` equal to 50 for row
size 1, 30/70 for row size 2, `20 + slot * 30` for row size 3, and
`15 + slot * 23.33` for row size 4. -/
theorem C5_coordinate_formulas (lineup : Lineup) (f : List Char)
    (xs : List StartItem) (hf : lineup.formation = some f) (hne : f ≠ [])
    (hxs : lineup.startXI = some xs)
    (index : Nat) (item : StartItem) (hitem : xs.get? index = some item)
    (pr : PlayerRec) (hpr : item.player = some pr)
    (row slot sz : Nat)
    (ha : MatchDetails.assign (parseFormation f) index = (row, slot, sz)) :
    ∃ l c, MatchDetails.renderFormationGrid lineup = some l ∧
      l.get? index = some (some c) ∧
      c.top = ((row : ℚ) * 120) /
          ((((splitOnDash f).length + 1 : Nat) : ℚ) + 1) + 10 ∧
      (sz = 1 → c.left = some 50) ∧
      (sz = 2 → c.left = some (if slot = 0 then (30 : ℚ) else 70)) ∧
      (sz = 3 → c.left = some (20 + (slot : ℚ) * 30)) ∧
      (sz = 4 → c.left = some (15 + (slot : ℚ) * 23.33)) := by
  obtain ⟨lf, lx⟩ := lineup
  have hlf : lf = some f := hf
  have hlx : lx = some xs := hxs
  subst hlf hlx
  refine ⟨_,
    MatchDetails.coordFor (parseFormation f) ((parseFormation f).length + 1) index,
    renderFormationGrid_some f xs hne, ?_, ?_, ?_, ?_, ?_, ?_⟩
  · rw [renderPlayers_get, hitem]
    simp [hpr]
  · simp only [MatchDetails.coordFor, ha]
    simp [MatchDetails.topPct, parseFormation]
  · intro h1
    simp [MatchDetails.coordFor, ha, MatchDetails.leftPct, h1]
  · intro h2
    simp [MatchDetails.coordFor, ha, MatchDetails.leftPct, h2]
  · intro h3
    simp [MatchDetails.coordFor, ha, MatchDetails.leftPct, h3]
  · intro h4
    simp [MatchDetails.coordFor, ha, MatchDetails.leftPct, h4]

/-- C5 witness: in lineup "4-3-3" with 11 players, index 2 (row 1,
slot 1, row size 4) obeys the formulas; in particular its left% is
`15 + 1 * 23.33`. -/
theorem C5_witness :
    ∃ l c, MatchDetails.renderFormationGrid lineup433 = some l ∧
      l.get? 2 = some (some c) ∧
      c.top = (((1 : Nat) : ℚ) * 120) /
          ((((splitOnDash ['4', '-', '3', '-', '3']).length + 1 : Nat) : ℚ) + 1) + 10 ∧
      ((4 : Nat) = 1 → c.left = some 50) ∧
      ((4 : Nat) = 2 → c.left = some (if (1 : Nat) = 0 then (30 : ℚ) else 70)) ∧
      ((4 : Nat) = 3 → c.left = some (20 + ((1 : Nat) : ℚ) * 30)) ∧
      ((4 : Nat) = 4 → c.left = some (15 + ((1 : Nat) : ℚ) * 23.33)) :=
  C5_coordinate_formulas lineup433 ['4', '-', '3', '-', '3'] (testXI 11)
    rfl (by decide) rfl 2 ⟨some ⟨2, []⟩⟩ (by decide) ⟨2, []⟩ rfl
    1 1 4 (by decide)

/-- C6 (amended): on formation strings whose segments all parse as
integers (digit-only or empty segments, the domain on which the
`Number` model is exact), every coordinate the engine produces has
`top ≥ 0` and any defined `left` within `[0, 100]`; `top ≤ 100` is
guaranteed only when the formation has at most 6 rows (with 7 or more
rows the last rows exceed 100, see the counterexample).  The
all-integer hypothesis is a genuine restriction of the original
claim's "every formation string": a fractional segment such as `"0.1"`
shifts later rows' slot positions fractionally in the real program
(formation "0.1-3", index 4: `playersInRow` 3, `position` 2.9, left
`20 + 2.9 * 30 = 107`), producing a defined left% outside `[0, 100]`. -/
theorem C6_coordinate_bounds (lineup : Lineup) (f : List Char)
    (ns : List Nat)
    (hf : lineup.formation = some f)
    (hrows : parseFormation f = ns.map some)
    (l : List (Option Coord))
    (hl : MatchDetails.renderFormationGrid lineup = some l)
    (i : Nat) (c : Coord) (hc : l.get? i = some (some c)) :
    0 ≤ c.top ∧ (∀ x, c.left = some x → 0 ≤ x ∧ x ≤ 100) ∧
      ((splitOnDash f).length ≤ 6 → c.top ≤ 100) := by
  obtain ⟨lf, lx⟩ := lineup
  have hlf : lf = some f := hf
  subst hlf
  rcases lx with _ | xs
  · simp [MatchDetails.renderFormationGrid] at hl
  · by_cases hne : f = []
    · subst hne
      simp [MatchDetails.renderFormationGrid] at hl
    · rw [renderFormationGrid_some f xs hne] at hl
      injection hl with hl
      subst hl
      rw [renderPlayers_get] at hc
      rcases hx : xs.get? i with _ | item
      · rw [hx] at hc; cases hc
      · rw [hx] at hc
        simp only [Option.map_some'] at hc
        injection hc with hc
        rcases hp : item.player with _ | pr
        · rw [hp] at hc; cases hc
        · rw [hp] at hc
          simp only [Option.map_some'] at hc
          injection hc with hc
          subst hc
          have hlen : (parseFormation f).length = (splitOnDash f).length := by
            simp [parseFormation]
          have hb := coordFor_bounds (parseFormation f) (0 + i)
          refine ⟨hb.1, hb.2.1, fun h6 => hb.2.2 ?_⟩
          rw [hlen]
          exact h6

/-- C6 witness: the keeper of lineup "4-3-3" (an all-integer
formation) sits at (10, 50), within bounds; the formation has 3 rows,
at most 6. -/
theorem C6_witness :
    0 ≤ (Coord.mk 10 (some 50)).top ∧
      (∀ x, (Coord.mk 10 (some 50)).left = some x → 0 ≤ x ∧ x ≤ 100) ∧
      ((splitOnDash ['4', '-', '3', '-', '3']).length ≤ 6 →
        (Coord.mk 10 (some 50)).top ≤ 100) :=
  C6_coordinate_bounds lineup433 ['4', '-', '3', '-', '3'] [4, 3, 3] rfl
    (by decide)
    [some ⟨10, some 50⟩,
      some ⟨34, some 15⟩, some ⟨34, some (3833 / 100)⟩,
      some ⟨34, some (6166 / 100)⟩, some ⟨34, some (8499 / 100)⟩,
      some ⟨58, some 20⟩, some ⟨58, some 50⟩, some ⟨58, some 80⟩,
      some ⟨82, some 20⟩, some ⟨82, some 50⟩, some ⟨82, some 80⟩]
    (by
      norm_num +decide [lineup433, MatchDetails.renderFormationGrid,
        parseFormation, splitOnDash,
        (by decide : jsNumber ['4'] = some 4),
        (by decide : jsNumber ['3'] = some 3),
        MatchDetails.renderPlayers, MatchDetails.coordFor, MatchDetails.assign,
        MatchDetails.loopAssign, MatchDetails.topPct, MatchDetails.leftPct,
        testXI, List.range_succ])
    0 ⟨10, some 50⟩ rfl

/-- C6 counterexample: with the 8-row formation "1-1-1-1-1-1-1-1" and
its full 9-player roster, the player at index 8 receives
top% = (8 * 120) / 10 + 10 = 106 > 100, so coordinates are not always
within [0, 100]. -/
theorem C6_counterexample :
    layoutAt lineupOnes 8 = some (some ⟨106, some 50⟩) ∧
      ¬ ((106 : ℚ) ≤ 100) := by
  constructor
  · norm_num +decide [layoutAt, lineupOnes, MatchDetails.renderFormationGrid,
      parseFormation, splitOnDash, jsNumber, digitsVal,
      MatchDetails.renderPlayers, MatchDetails.coordFor, MatchDetails.assign,
      MatchDetails.loopAssign, MatchDetails.topPct, MatchDetails.leftPct,
      testXI, List.range_succ]
  · norm_num

/-- C7 (amended): for every formation string matching the pattern
`\d+(-\d+)*`, parsing yields one numeric (non-NaN) value per
`'-'`-separated segment — a sequence of natural numbers equal in count
to the segments.  Positivity of every element does NOT hold in
general, since a segment may denote zero (see the counterexample). -/
theorem C7_segments_parse_to_numbers (s : List Char)
    (h : matchesPattern s = true) :
    (parseFormation s).length = (splitOnDash s).length ∧
      ∀ v ∈ parseFormation s, ∃ n : Nat, v = some n := by
  constructor
  · simp [parseFormation]
  · intro v hv
    simp only [parseFormation, List.mem_map] at hv
    obtain ⟨seg, hseg, rfl⟩ := hv
    simp only [matchesPattern, List.all_eq_true] at h
    have hdig := h seg hseg
    simp only [Bool.and_eq_true] at hdig
    refine ⟨digitsVal seg, ?_⟩
    unfold jsNumber
    rw [if_pos hdig.2]

/-- C7 witness: "4-3-3" matches the pattern and parses to one numeric
value per segment. -/
theorem C7_witness :
    (parseFormation ['4', '-', '3', '-', '3']).length =
        (splitOnDash ['4', '-', '3', '-', '3']).length ∧
      ∀ v ∈ parseFormation ['4', '-', '3', '-', '3'], ∃ n : Nat, v = some n :=
  C7_segments_parse_to_numbers ['4', '-', '3', '-', '3'] (by decide)

/-- C7 counterexample: "4-0-2" matches `\d+(-\d+)*` yet parses to
[4, 0, 2], whose middle element is not a positive integer. -/
theorem C7_counterexample :
    matchesPattern ['4', '-', '0', '-', '2'] = true ∧
      parseFormation ['4', '-', '0', '-', '2'] = [some 4, some 0, some 2] ∧
      ((parseFormation ['4', '-', '0', '-', '2']).all isPosVal) = false := by
  exact ⟨by decide, by decide, by decide⟩

/-- A marker present in the output at position `i` is the coordinate
computed for index `i`. -/
theorem renderPlayers_get_coord (rows : List (Option Nat)) (tr : Nat)
    (xs : List StartItem) (i : Nat) (c : Coord)
    (hc : (MatchDetails.renderPlayers rows tr 0 xs).get? i = some (some c)) :
    c = MatchDetails.coordFor rows tr i := by
  rw [renderPlayers_get] at hc
  rcases hx : xs.get? i with _ | item
  · rw [hx] at hc; cases hc
  · rw [hx] at hc
    simp only [Option.map_some'] at hc
    injection hc with hc
    rcases hp : item.player with _ | pr
    · rw [hp] at hc; cases hc
    · rw [hp] at hc
      simp only [Option.map_some'] at hc
      injection hc with hc
      simp [← hc]

/-- On an all-numeric formation a positive within-capacity index is
assigned by the reference walk. -/
theorem assign_eq_specFind (ns : List Nat) (k : Nat) (hk1 : 1 ≤ k)
    (hk2 : k < 1 + ns.sum) :
    MatchDetails.assign (ns.map some) k = specFind ns 0 0 (k - 1) := by
  unfold MatchDetails.assign
  rw [if_neg (by omega)]
  have h2 := loopAssign_eq_specFind ns 0 0 (k - 1) (Nat.zero_le _) (by omega)
  rw [show k - 1 + 1 = k from by omega] at h2
  simpa using h2

/-- C8 (amended): on an all-numeric formation with a roster of exactly
`1 + sum(FormationSpec)` all-present players, every player receives
exactly one coordinate (the output has one `some` entry per roster
position), and two distinct players assigned to the same row receive
distinct `left%` values whenever that row's size is at most 4.  (For
rows of size 5 and up every slot's `left%` is equally undefined, so
the original unconditional distinctness claim fails: see the
counterexample.) -/
theorem C8_exact_roster (ns : List Nat) (f : List Char) (xs : List StartItem)
    (lineup : Lineup) (hf : lineup.formation = some f) (hne : f ≠ [])
    (hrows : parseFormation f = ns.map some)
    (hxs : lineup.startXI = some xs)
    (hlen : xs.length = 1 + ns.sum)
    (hplayers : ∀ it ∈ xs, it.player.isSome) :
    ∃ l, MatchDetails.renderFormationGrid lineup = some l ∧
      l.length = xs.length ∧
      (∀ i, i < xs.length → ∃ c, l.get? i = some (some c)) ∧
      (∀ i j ci cj, i < xs.length → j < xs.length → i ≠ j →
        l.get? i = some (some ci) → l.get? j = some (some cj) →
        (MatchDetails.assign (ns.map some) i).1 =
          (MatchDetails.assign (ns.map some) j).1 →
        (MatchDetails.assign (ns.map some) i).2.2 ≤ 4 →
        ci.left ≠ cj.left) := by
  obtain ⟨lf, lx⟩ := lineup
  have hlf : lf = some f := hf
  have hlx : lx = some xs := hxs
  subst hlf hlx
  refine ⟨_, renderFormationGrid_some f xs hne, ?_, ?_, ?_⟩
  · rw [renderPlayers_length]
  · intro i hi
    rw [renderPlayers_get]
    rcases hx : xs.get? i with _ | item
    · rw [List.get?_eq_none] at hx
      omega
    · have hmem : item ∈ xs := List.get?_mem hx
      have hsome := hplayers item hmem
      rcases hply : item.player with _ | pr
      · rw [hply] at hsome
        simp at hsome
      · exact ⟨MatchDetails.coordFor (parseFormation f)
            ((parseFormation f).length + 1) i, by simp [hx, hply]⟩
  · intro i j ci cj hi hj hij hci hcj hrow hsz
    have hci2 := renderPlayers_get_coord _ _ xs i ci hci
    have hcj2 := renderPlayers_get_coord _ _ xs j cj hcj
    rw [hrows] at hci2 hcj2
    have hcil : ci.left =
        MatchDetails.leftPct (MatchDetails.assign (ns.map some) i).2.2
          (MatchDetails.assign (ns.map some) i).2.1 := by
      rw [hci2]; rfl
    have hcjl : cj.left =
        MatchDetails.leftPct (MatchDetails.assign (ns.map some) j).2.2
          (MatchDetails.assign (ns.map some) j).2.1 := by
      rw [hcj2]; rfl
    have hzero : MatchDetails.assign (ns.map some) 0 = (0, 0, 1) := by
      simp [MatchDetails.assign]
    by_cases hi0 : i = 0
    · subst hi0
      have hj1 : 1 ≤ j := by omega
      have hEj := assign_eq_specFind ns j hj1 (by omega)
      have hlb := specFind_row_lb ns 0 0 (j - 1) (Nat.zero_le _) (by omega)
      rw [hzero, hEj] at hrow
      simp at hrow
      omega
    · by_cases hj0 : j = 0
      · subst hj0
        have hi1 : 1 ≤ i := by omega
        have hEi := assign_eq_specFind ns i hi1 (by omega)
        have hlb := specFind_row_lb ns 0 0 (i - 1) (Nat.zero_le _) (by omega)
        rw [hzero, hEi] at hrow
        simp at hrow
        omega
      · have hi1 : 1 ≤ i := by omega
        have hj1 : 1 ≤ j := by omega
        have hEi := assign_eq_specFind ns i hi1 (by omega)
        have hEj := assign_eq_specFind ns j hj1 (by omega)
        rw [hEi, hEj] at hrow
        rw [hEi] at hsz hcil
        rw [hEj] at hcjl
        have hsame := specFind_same_row ns 0 0 (i - 1) (j - 1) (Nat.zero_le _)
          (by omega) (Nat.zero_le _) (by omega) (by omega) hrow
        have hsame2 := specFind_same_row ns 0 0 (j - 1) (i - 1) (Nat.zero_le _)
          (by omega) (Nat.zero_le _) (by omega) (by omega) hrow.symm
        rw [hcil, hcjl, ← hsame.1]
        exact leftPct_inj _ _ _ hsame.2.2 (hsame.1 ▸ hsame2.2.2) hsame.2.1 hsz

/-- C8 witness: formation "4-3-3" with its exact 11-player roster. -/
theorem C8_witness :
    ∃ l, MatchDetails.renderFormationGrid lineup433 = some l ∧
      l.length = (testXI 11).length ∧
      (∀ i, i < (testXI 11).length → ∃ c, l.get? i = some (some c)) ∧
      (∀ i j ci cj, i < (testXI 11).length → j < (testXI 11).length → i ≠ j →
        l.get? i = some (some ci) → l.get? j = some (some cj) →
        (MatchDetails.assign ([4, 3, 3].map some) i).1 =
          (MatchDetails.assign ([4, 3, 3].map some) j).1 →
        (MatchDetails.assign ([4, 3, 3].map some) i).2.2 ≤ 4 →
        ci.left ≠ cj.left) :=
  C8_exact_roster [4, 3, 3] ['4', '-', '3', '-', '3'] (testXI 11) lineup433
    rfl (by decide) (by decide) rfl (by decide) (by decide)

/-- C8 counterexample: formation "5-3-2" with its exact 11-player
roster puts the players at indices 1 and 2 in the same row (row 1, of
size 5), and both receive the identical coordinate (top 34, left
undefined) — the same (absent) `left%` value. -/
theorem C8_counterexample :
    (testXI 11).length = 1 + [5, 3, 2].sum ∧
      parseFormation ['5', '-', '3', '-', '2'] = [5, 3, 2].map some ∧
      (MatchDetails.assign (parseFormation ['5', '-', '3', '-', '2']) 1).1 =
        (MatchDetails.assign (parseFormation ['5', '-', '3', '-', '2']) 2).1 ∧
      layoutAt lineup532 1 = some (some ⟨34, none⟩) ∧
      layoutAt lineup532 2 = some (some ⟨34, none⟩) := by
  refine ⟨by decide, by decide, by decide, ?_, ?_⟩ <;>
    norm_num +decide [layoutAt, lineup532, MatchDetails.renderFormationGrid,
      parseFormation, splitOnDash,
      (by decide : jsNumber ['5'] = some 5),
      (by decide : jsNumber ['3'] = some 3),
      (by decide : jsNumber ['2'] = some 2),
      MatchDetails.renderPlayers, MatchDetails.coordFor, MatchDetails.assign,
      MatchDetails.loopAssign, MatchDetails.topPct, MatchDetails.leftPct,
      testXI, List.range_succ]

/-- C9 (amended): formation "4-3-3" with 11 players — the keeper gets
left 50; row 1 (size 4) gets left values 15, 38.33, 61.66 and 84.99
(the last is 15 + 3 * 23.33 = 84.99, not the 85 the claim states);
rows 2 and 3 (size 3) each get left values 20, 50, 80.  The top values
are 10, 34, 58, 82 per row. -/
theorem C9_scenario_433 :
    MatchDetails.renderFormationGrid lineup433 =
      some [some ⟨10, some 50⟩,
        some ⟨34, some 15⟩, some ⟨34, some (3833 / 100)⟩,
        some ⟨34, some (6166 / 100)⟩, some ⟨34, some (8499 / 100)⟩,
        some ⟨58, some 20⟩, some ⟨58, some 50⟩, some ⟨58, some 80⟩,
        some ⟨82, some 20⟩, some ⟨82, some 50⟩, some ⟨82, some 80⟩] := by
  norm_num +decide [lineup433, MatchDetails.renderFormationGrid,
    parseFormation, splitOnDash,
    (by decide : jsNumber ['4'] = some 4),
    (by decide : jsNumber ['3'] = some 3),
    MatchDetails.renderPlayers, MatchDetails.coordFor, MatchDetails.assign,
    MatchDetails.loopAssign, MatchDetails.topPct, MatchDetails.leftPct,
    testXI, List.range_succ]

/-- C9 counterexample: the fourth player of row 1 (index 4) receives
left% = 15 + 3 * 23.33 = 84.99, which differs from the claimed 85. -/
theorem C9_counterexample :
    layoutAt lineup433 4 = some (some ⟨34, some (8499 / 100)⟩) ∧
      ((8499 : ℚ) / 100) ≠ 85 := by
  constructor
  · norm_num +decide [layoutAt, lineup433, MatchDetails.renderFormationGrid,
      parseFormation, splitOnDash,
      (by decide : jsNumber ['4'] = some 4),
      (by decide : jsNumber ['3'] = some 3),
      MatchDetails.renderPlayers, MatchDetails.coordFor, MatchDetails.assign,
      MatchDetails.loopAssign, MatchDetails.topPct, MatchDetails.leftPct,
      testXI, List.range_succ]
  · norm_num
